import Mathlib

/-!
Shallow embedding of the promise/control-flow core of
`lib/webdriver/promise.js` (selenium-webdriver).

The JavaScript values the promise machinery manipulates are modelled by
`JSVal`; error objects carry a unique id (`uid`) so that structural
equality of `JSVal` coincides with JavaScript object identity for
errors.  Promise records (`PromiseRec`) mirror the private fields of
`promise.Promise`; functions such as `resolve_`, `scheduleNotifications_`,
`addCallback_` and `cancelP` are direct transcriptions of the
correspondingly named methods.  Effects on the ambient control flow
(assigning the active queue, registering unhandled rejections) are
returned explicitly instead of being performed on shared state.
-/

namespace SW

/-- The error classes of the module's taxonomy.  `FlowResetError` and
`DiscardedTaskError` extend `promise.CancellationError`;
`MultipleUnhandledRejectionError` extends `DebugError` only.
`GenericError` stands for any other `Error`. -/
inductive ErrClass
  | CancellationError
  | FlowResetError
  | DiscardedTaskError
  | MultipleUnhandledRejectionError
  | TypeError
  | GenericError
deriving DecidableEq, Repr

/-- JavaScript values as far as the promise core inspects them.
`err uid cls message silent` is an Error object: `uid` models object
identity, `silent` is the `silent_` field of cancellation errors. -/
inductive JSVal
  | undef
  | str (s : String)
  | num (n : Int)
  | promiseRef (id : Nat)
  | deferredRef (id : Nat)
  | err (uid : Nat) (cls : ErrClass) (message : String) (silent : Bool)
deriving DecidableEq, Repr

/-- `value instanceof promise.CancellationError` (true for the two
subclasses as well). -/
def isCancellationErrorVal : JSVal → Bool
  | .err _ cls _ _ =>
    cls = ErrClass.CancellationError ∨ cls = ErrClass.FlowResetError ∨
      cls = ErrClass.DiscardedTaskError
  | _ => false

/-- `value instanceof DiscardedTaskError`. -/
def isDiscardedTaskErrorVal : JSVal → Bool
  | .err _ cls _ _ => cls = ErrClass.DiscardedTaskError
  | _ => false

/-- `value instanceof promise.CancellationError && value.silent_`. -/
def isSilentCancellation : JSVal → Bool
  | .err u cls m silent => isCancellationErrorVal (.err u cls m silent) && silent
  | _ => false

/-- `promise.Thenable.isImplementation(value)`: `promise.Promise` and
`promise.Deferred` are the two registered implementations. -/
def isThenableImpl : JSVal → Bool
  | .promiseRef _ => true
  | .deferredRef _ => true
  | _ => false

/-- `value instanceof promise.Promise`. -/
def isPromiseInstance : JSVal → Bool
  | .promiseRef _ => true
  | _ => false

/-- JavaScript truthiness of a `JSVal`. -/
def truthy : JSVal → Bool
  | .undef => false
  | .str s => !s.isEmpty
  | .num n => n ≠ 0
  | _ => true

/-- The `name` property set by each error class's constructor. -/
def ErrClass.jsName : ErrClass → String
  | .CancellationError => "CancellationError"
  | .FlowResetError => "FlowResetError"
  | .DiscardedTaskError => "DiscardedTaskError"
  | .MultipleUnhandledRejectionError => "MultipleUnhandledRejectionError"
  | .TypeError => "TypeError"
  | .GenericError => "Error"

/-- `String(value)`.  For errors this is `Error.prototype.toString`
(`name` or `name: message`); the `Promise`/`Deferred` `toString`
includes a status read from mutable state not carried by the value, so
only the uid part is rendered here — no claim depends on it. -/
def jsToString : JSVal → String
  | .undef => "undefined"
  | .str s => s
  | .num n => toString n
  | .promiseRef id => "Promise::" ++ toString id
  | .deferredRef id => "Deferred::" ++ toString id
  | .err _ cls m _ => if m.isEmpty then cls.jsName else cls.jsName ++ ": " ++ m

/-- `typeof error.message === 'string' ? error.message : error` used by
the `DiscardedTaskError` constructor (every modelled error has a string
`message`). -/
def messageOrString : JSVal → String
  | .err _ _ m _ => m
  | v => jsToString v

/-- The `DiscardedTaskError` constructor: returns an already-discarded
error unchanged, otherwise builds a new silent cancellation error whose
message appends the cause's message.  `uid` is the fresh identity of the
constructed object. -/
def mkDiscardedTaskError (uid : Nat) (error : JSVal) : JSVal :=
  if isDiscardedTaskErrorVal error then error
  else
    let msg := if truthy error then ": " ++ messageOrString error else ""
    .err uid .DiscardedTaskError
      ("Task was discarded due to a previous failure" ++ msg) true

/-- `promise.CancellationError.wrap(error, opt_msg)`.  When the wrapped
value is falsy and no message is given the source passes `undefined` to
the constructor; the resulting message is rendered as `""` here. -/
def wrapCancellation (uid : Nat) (error : JSVal) (optMsg : Option String) : JSVal :=
  if isCancellationErrorVal error then
    .err uid .CancellationError
      (match optMsg with
       | some m => m ++ ": " ++ messageOrString error
       | none => messageOrString error) false
  else
    match optMsg with
    | some m =>
      .err uid .CancellationError
        (if truthy error then m ++ ": " ++ jsToString error else m) false
    | none =>
      .err uid .CancellationError
        (if truthy error then jsToString error else "") false

/-- `PromiseState` enum. -/
inductive PromiseState
  | pending
  | blocked
  | rejected
  | fulfilled
deriving DecidableEq, Repr

/-- The private fields of a `promise.Promise`.  `callbacks` holds the
ids of the callback `Task`s registered while pending (`callbacks_`,
`null` ≈ `none`); `cancelHandler` records whether the
`CANCEL_HANDLER_SYMBOL` slot is set; `queue` is `queue_`. -/
structure PromiseRec where
  state : PromiseState
  value : JSVal
  parent : Option Nat
  callbacks : Option (List Nat)
  handled : Bool
  queue : Option Nat
  cancelHandler : Bool
deriving DecidableEq, Repr

/-- A freshly constructed promise, before its resolver runs. -/
def initPromise : PromiseRec :=
  { state := .pending, value := .undef, parent := none, callbacks := none,
    handled := false, queue := none, cancelHandler := false }

/-- `scheduleNotifications_`, acting on one promise record.  The active
queue of the flow is passed in (`getActiveQueue_`); the returned `Bool`
records whether `queue_.addUnhandledRejection(this)` is invoked.
`queue_.scheduleCallbacks(this)` is modelled separately
(`scheduleCallbacksInterrupts`). -/
def scheduleNotifications_ (activeQueue : Nat) (p : PromiseRec) :
    PromiseRec × Bool :=
  let p1 := { p with cancelHandler := false }
  let p2 := if isSilentCancellation p1.value then { p1 with callbacks := none }
            else p1
  let p3 := if p2.queue = none then { p2 with queue := some activeQueue } else p2
  let addUnhandled :=
    !p3.handled && decide (p3.state = .rejected) &&
      !isCancellationErrorVal p3.value
  (p3, addUnhandled)

/-- `promise.Promise.resolve_` as one synchronous step on the promise's
own record.  `selfId` is the promise's identity, `uid` the identity for
a `TypeError` constructed on self-resolution.  When a thenable is
adopted (spec 2.3.2) the record is left `blocked`; the registration of
`unblockAndResolve_` on the inner thenable is asynchronous machinery
outside this record.  Plain objects with a callable `then` (2.3.3.3) do
not arise for `JSVal`: the only object values besides the two thenable
implementations are errors, whose `then` is `undefined`, so 2.3.3
always falls through to the commit (and the property read never
throws, so 2.3.3.2 is unreachable).  The second component is the
`addUnhandledRejection` effect of `scheduleNotifications_` (`false`
when no notification is scheduled). -/
def resolve_ (selfId activeQueue uid : Nat) (p : PromiseRec)
    (newState : PromiseState) (newValue : JSVal) : PromiseRec × Bool :=
  if p.state ≠ .pending then (p, false)
  else
    let sv : PromiseState × JSVal :=
      if newValue = .promiseRef selfId then
        (.rejected, .err uid .TypeError "A promise may not resolve to itself" false)
      else (newState, newValue)
    let p1 := { p with parent := none, state := .blocked }
    if sv.1 ≠ .rejected ∧ isThenableImpl sv.2 = true then
      (p1, false)
    else
      scheduleNotifications_ activeQueue
        { p1 with state := sv.1, value := sv.2 }

/-- The `fulfill` closure handed to the resolver by the constructor. -/
def promiseFulfill (selfId activeQueue uid : Nat) (p : PromiseRec)
    (v : JSVal) : PromiseRec × Bool :=
  resolve_ selfId activeQueue uid p .fulfilled v

/-- The `reject` closure handed to the resolver by the constructor. -/
def promiseReject (selfId activeQueue uid : Nat) (p : PromiseRec)
    (v : JSVal) : PromiseRec × Bool :=
  resolve_ selfId activeQueue uid p .rejected v

/-- `promise.Deferred`'s `fulfill` member: `checkNotSelf` throws a
`TypeError` (the `Except.error` case) when the value is the `Deferred`
object itself, otherwise the promise's `fulfill` closure runs.
`dId` is the deferred's identity, `selfPid` its promise's. -/
def deferredFulfill (dId selfPid activeQueue uid tuid : Nat)
    (p : PromiseRec) (v : JSVal) : Except JSVal (PromiseRec × Bool) :=
  if v = .deferredRef dId then
    .error (.err tuid .TypeError "May not resolve a Deferred with itself" false)
  else
    .ok (promiseFulfill selfPid activeQueue uid p v)

/-- `promise.Deferred`'s `reject` member, mirroring `deferredFulfill`. -/
def deferredReject (dId selfPid activeQueue uid tuid : Nat)
    (p : PromiseRec) (v : JSVal) : Except JSVal (PromiseRec × Bool) :=
  if v = .deferredRef dId then
    .error (.err tuid .TypeError "May not resolve a Deferred with itself" false)
  else
    .ok (promiseReject selfPid activeQueue uid p v)

/-- Outcome of `Promise.addCallback_`: the updated source record, the
id of the returned promise, the new callback task's promise record (if
one was created; its `parent_` is set to the source), whether the task
was pushed onto `callbacks_`, its `isVolatile` flag, whether it was
enqueued on the flow's active queue, and which queue (if any) had
`clearUnhandledRejection` invoked on it. -/
structure AddCallbackResult where
  selfAfter : PromiseRec
  ret : Nat
  created : Option PromiseRec
  pushedCallback : Bool
  volatileFlag : Bool
  enqueuedActive : Bool
  clearedQueue : Option Nat
deriving DecidableEq, Repr

/-- `promise.Promise.addCallback_(callback, errback, name, fn)`.
`hasCb`/`hasEb` are `goog.isFunction(callback)`/`goog.isFunction(errback)`;
`newTaskId` is the identity of the freshly constructed callback task's
promise. -/
def addCallback_ (selfId newTaskId : Nat) (p : PromiseRec)
    (hasCb hasEb : Bool) : AddCallbackResult :=
  if hasCb = false ∧ hasEb = false then
    { selfAfter := p, ret := selfId, created := none, pushedCallback := false,
      volatileFlag := false, enqueuedActive := false, clearedQueue := none }
  else
    let p1 := { p with handled := true }
    let cbPromise := { initPromise with parent := some selfId }
    if p1.state ≠ .pending ∧ p1.state ≠ .blocked then
      { selfAfter := p1, ret := newTaskId, created := some cbPromise,
        pushedCallback := false, volatileFlag := false,
        enqueuedActive := true, clearedQueue := p1.queue }
    else
      { selfAfter := { p1 with
          callbacks := some ((p1.callbacks.getD []) ++ [newTaskId]) },
        ret := newTaskId, created := some cbPromise, pushedCallback := true,
        volatileFlag := true, enqueuedActive := true, clearedQueue := p1.queue }

/-- What `Promise.invokeCallback_(callback, errback)` does with the
settled promise's value: invoke one of the two functions with it,
re-throw it, or return it.  (A generator callback is driven through
`promise.consume`; which function receives the value is unchanged, so
that adapter is not modelled separately.) -/
inductive CallbackOutcome
  | invokeFulfilled (arg : JSVal)
  | invokeRejected (arg : JSVal)
  | throwValue (v : JSVal)
  | returnValue (v : JSVal)
deriving DecidableEq, Repr

/-- `promise.Promise.invokeCallback_`. -/
def invokeCallback_ (p : PromiseRec) (hasCb hasEb : Bool) : CallbackOutcome :=
  if p.state = .rejected then
    if hasEb then .invokeRejected p.value else .throwValue p.value
  else
    if hasCb then .invokeFulfilled p.value else .returnValue p.value

/-- `promise.fulfilled(value)`: returns the argument itself when it is
a `promise.Promise` instance, otherwise a new promise (id `freshId`)
whose resolver immediately calls `fulfill(value)`.  The second
component is the new promise's record, `none` when no promise was
constructed. -/
def promiseFulfilled (freshId activeQueue uid : Nat) (v : JSVal) :
    JSVal × Option PromiseRec :=
  if isPromiseInstance v then (v, none)
  else (.promiseRef freshId,
        some (promiseFulfill freshId activeQueue uid initPromise v).1)

/-- `promise.rejected(reason)`, mirroring `promiseFulfilled`. -/
def promiseRejected (freshId activeQueue uid : Nat) (v : JSVal) :
    JSVal × Option PromiseRec :=
  if isPromiseInstance v then (v, none)
  else (.promiseRef freshId,
        some (promiseReject freshId activeQueue uid initPromise v).1)

/-! ### TaskQueue -/

/-- JS `Set.add` on a list kept in insertion order without duplicates
(`unhandledRejections_.add`). -/
def setAdd (s : List Nat) (x : Nat) : List Nat :=
  if x ∈ s then s else s ++ [x]

/-- `TaskQueue.addUnhandledRejection(promise)`. -/
def addUnhandledRejection (s : List Nat) (pid : Nat) : List Nat :=
  setAdd s pid

/-- `TaskQueue.clearUnhandledRejection(promise)`: JS `Set.delete`. -/
def clearUnhandledRejection (s : List Nat) (pid : Nat) : List Nat :=
  s.erase pid

/-- The lane-transfer core of `TaskQueue.scheduleCallbacks(promise)`:
every task on the promise's `callbacks_` list is appended to the
queue's interrupt lane (in registration order) and `callbacks_` is
nulled; when `callbacks_` is `null` nothing is scheduled.  (Clearing
each task's volatile flag and removing it from any other queue are
bookkeeping on the task records themselves.) -/
def scheduleCallbacksInterrupts (interrupts : List Nat) (p : PromiseRec) :
    List Nat × PromiseRec :=
  match p.callbacks with
  | none => (interrupts, p)
  | some cbs => (interrupts ++ cbs, { p with callbacks := none })

/-- `TaskQueue.getNextTask_()` on the two lanes (`interrupts_`,
`tasks_`; a `null` lane behaves as the empty list): shift from the
interrupt lane first, else from the normal lane. -/
def getNextTask_ : List Nat → List Nat → Option Nat × (List Nat × List Nat)
  | t :: rest, tsks => (some t, (rest, tsks))
  | [], t :: rest => (some t, ([], rest))
  | [], [] => (none, ([], []))

/-- One lane's share of the dequeue loop in `TaskQueue.executeNext_`:
shift tasks off the lane, discarding every one whose promise is no
longer pending, until a pending task or the lane's end is reached.
`pend t` is `task.promise.isPending()`. -/
def dequeueLane (pend : Nat → Bool) : List Nat → Option Nat × List Nat
  | [] => (none, [])
  | t :: rest =>
    if pend t then (some t, rest) else dequeueLane pend rest

/-- The dequeue loop of `TaskQueue.executeNext_`:
`do { task = this.getNextTask_(); } while (task && !task.promise.isPending());`
Because `getNextTask_` shifts from the interrupt lane while it is
non-empty and only then from the normal lane, the interleaved do-while
is the interrupt-lane sweep followed, if it found nothing, by the
normal-lane sweep. -/
def dequeueLoop (pend : Nat → Bool) (ints tsks : List Nat) :
    Option Nat × (List Nat × List Nat) :=
  match dequeueLane pend ints with
  | (some t, rest) => (some t, (rest, tsks))
  | (none, _) =>
    match dequeueLane pend tsks with
    | (some t, rest) => (some t, ([], rest))
    | (none, _) => (none, ([], []))

/-- The value `errorToReport` computed by
`processUnhandledRejections_`: either the sole recorded rejection value
or a fresh `MultipleUnhandledRejectionError` carrying the distinct
recorded values (`uid` is the identity of that aggregate object, its
`errors` set kept as an insertion-ordered list). -/
inductive Reported
  | single (v : JSVal)
  | multiple (uid : Nat) (errors : List JSVal)
deriving DecidableEq, Repr

/-- JS `Set.add` over values (SameValueZero; object identity is carried
by error uids). -/
def setAddV (s : List JSVal) (x : JSVal) : List JSVal :=
  if x ∈ s then s else s ++ [x]

/-- The `errors` set built by iterating `unhandledRejections_` in
insertion order and adding each promise's `value_`. -/
def dedupValues (l : List JSVal) : List JSVal :=
  l.foldl setAddV []

/-- Outcome of `TaskQueue.processUnhandledRejections_`: its boolean
return value, the argument of `abort_` if invoked, the argument of
`flow_.reportUncaughtException_` if invoked, and the queue's
`unhandledRejections_` set afterwards. -/
structure PURResult where
  returned : Bool
  abortedWith : Option Reported
  reportedUncaught : Option Reported
  rejectionsAfter : List Nat
deriving DecidableEq, Repr

/-- `TaskQueue.processUnhandledRejections_`.  `propagate` is
`flow_.propagateUnhandledRejections_`, `value_` maps a recorded
promise's id to its `value_`, `rejections` is `unhandledRejections_` in
insertion order, `uid` the identity of a constructed aggregate error.
(The `errors` set is non-empty whenever `rejections` is, so the
catch-all branch with `[]` is unreachable.) -/
def processUnhandledRejections_ (propagate : Bool) (value_ : Nat → JSVal)
    (rejections : List Nat) (uid : Nat) : PURResult :=
  if rejections.isEmpty then
    { returned := false, abortedWith := none, reportedUncaught := none,
      rejectionsAfter := rejections }
  else
    let errors := dedupValues (rejections.map value_)
    let errorToReport : Reported :=
      match errors with
      | [e] => .single e
      | _ => .multiple uid errors
    if propagate then
      { returned := true, abortedWith := some errorToReport,
        reportedUncaught := none, rejectionsAfter := [] }
    else
      { returned := false, abortedWith := none,
        reportedUncaught := some errorToReport, rejectionsAfter := [] }

/-! ### Cancellation over a promise heap -/

/-- A heap of promise records indexed by identity, needed because
`cancel` walks the `parent_` chain. -/
def Heap : Type := Nat → PromiseRec

/-- Pointwise update of a heap. -/
def updHeap (h : Heap) (id : Nat) (p : PromiseRec) : Heap :=
  fun x => if x = id then p else h x

/-- The local `canCancel` helper of `Promise.cancel`. -/
def canCancel (p : PromiseRec) : Bool :=
  p.state = PromiseState.pending || p.state = PromiseState.blocked

/-- The non-delegating tail of `Promise.cancel`: wrap the reason, run
and clear the cancel handler (its effect on the owning queue is outside
the promise record), then reject — through `unblockAndResolve_` when
blocked, directly otherwise. -/
def cancelLocal (h : Heap) (id activeQueue uid : Nat) (reason : JSVal) : Heap :=
  let p0 := h id
  let r := wrapCancellation uid reason none
  let p1 := { p0 with cancelHandler := false }
  let p2 :=
    if p1.state = PromiseState.blocked then
      (resolve_ id activeQueue uid { p1 with state := .pending } .rejected r).1
    else
      (resolve_ id activeQueue uid p1 .rejected r).1
  updHeap h id p2

/-- `promise.Promise.cancel(opt_reason)`: a no-op unless the promise is
pending or blocked; delegates to a cancellable parent, otherwise
rejects locally.  The recursion up the `parent_` chain is bounded by
`fuel` (the chain is finite in any reachable heap). -/
def cancelP : Nat → Heap → Nat → Nat → Nat → JSVal → Heap
  | 0, h, _, _, _, _ => h
  | fuel + 1, h, id, activeQueue, uid, reason =>
    let p := h id
    if canCancel p = false then h
    else
      match p.parent with
      | some par =>
        if canCancel (h par) then cancelP fuel h par activeQueue uid reason
        else cancelLocal h id activeQueue uid reason
      | none => cancelLocal h id activeQueue uid reason

/-! ### Helper lemmas -/

theorem scheduleNotifications_preserves (q : Nat) (p : PromiseRec) :
    ((scheduleNotifications_ q p).1.state = p.state) ∧
    ((scheduleNotifications_ q p).1.value = p.value) ∧
    ((scheduleNotifications_ q p).1.parent = p.parent) ∧
    ((scheduleNotifications_ q p).1.handled = p.handled) := by
  by_cases h1 : isSilentCancellation p.value = true <;>
    by_cases h2 : p.queue = none <;>
      simp [scheduleNotifications_, h1, h2]

theorem scheduleNotifications_flag (q : Nat) (p : PromiseRec) :
    (scheduleNotifications_ q p).2 =
      (!p.handled && decide (p.state = .rejected) &&
        !isCancellationErrorVal p.value) := by
  by_cases h1 : isSilentCancellation p.value = true <;>
    by_cases h2 : p.queue = none <;>
      simp [scheduleNotifications_, h1, h2]

theorem scheduleNotifications_silent_clears (q : Nat) (p : PromiseRec)
    (h : isSilentCancellation p.value = true) :
    (scheduleNotifications_ q p).1.callbacks = none := by
  by_cases h2 : p.queue = none <;>
    simp [scheduleNotifications_, h, h2]

/-- `resolve_` on an already-settled (or blocked) promise is the
identity. -/
theorem resolve_noop_of_settled (selfId q u : Nat) (p : PromiseRec)
    (s : PromiseState) (v : JSVal) (h : p.state ≠ .pending) :
    resolve_ selfId q u p s v = (p, false) := by
  unfold resolve_
  rw [if_pos h]

/-- `resolve_` on a pending promise, when the value is not the promise
itself and the thenable-adoption branch does not apply, commits the
given state and value and schedules notifications. -/
theorem resolve_commit (selfId q u : Nat) (p : PromiseRec)
    (s : PromiseState) (v : JSVal)
    (hp : p.state = .pending) (hself : v ≠ .promiseRef selfId)
    (hskip : s = .rejected ∨ isThenableImpl v = false) :
    resolve_ selfId q u p s v =
      scheduleNotifications_ q
        { p with parent := none, state := s, value := v } := by
  unfold resolve_
  rw [if_neg (by simp [hp])]
  simp only [if_neg hself]
  rcases hskip with h | h
  · subst h
    rw [if_neg (by simp)]
  · rw [if_neg (by simp [h])]

/-- `CancellationError.wrap` always produces a (non-silent)
`CancellationError` instance. -/
theorem wrapCancellation_shape (uid : Nat) (e : JSVal) (m : Option String) :
    ∃ msg, wrapCancellation uid e m = .err uid .CancellationError msg false := by
  unfold wrapCancellation
  rcases m with _ | mm <;> split_ifs <;> exact ⟨_, rfl⟩

theorem mem_foldl_setAddV (l : List JSVal) :
    ∀ acc v, v ∈ l.foldl setAddV acc ↔ v ∈ acc ∨ v ∈ l := by
  induction l with
  | nil => simp
  | cons x xs ih =>
    intro acc v
    rw [List.foldl_cons, ih]
    by_cases hx : x ∈ acc
    · simp only [setAddV, if_pos hx, List.mem_cons]
      constructor
      · rintro (h | h)
        · exact Or.inl h
        · exact Or.inr (Or.inr h)
      · rintro (h | h | h)
        · exact Or.inl h
        · exact Or.inl (by rw [h]; exact hx)
        · exact Or.inr h
    · simp only [setAddV, if_neg hx, List.mem_append, List.mem_cons,
        List.mem_singleton, List.not_mem_nil, or_false]
      tauto

theorem mem_dedupValues (l : List JSVal) (v : JSVal) :
    v ∈ dedupValues l ↔ v ∈ l := by
  rw [dedupValues, mem_foldl_setAddV]
  simp

theorem dequeueLane_eq (pend : Nat → Bool) (l : List Nat) :
    dequeueLane pend l =
      (l.find? pend, (l.dropWhile (fun t => !pend t)).tail) := by
  induction l with
  | nil => simp [dequeueLane]
  | cons t rest ih =>
    by_cases h : pend t
    · simp [dequeueLane, h, List.find?_cons, List.dropWhile_cons]
    · simp [dequeueLane, h, List.find?_cons, List.dropWhile_cons, ih]

/-- `resolve_` on a pending promise with the promise itself as value:
forced rejection with a `TypeError` (promise A+ 2.3.1). -/
theorem resolve_self (selfId q u : Nat) (p : PromiseRec) (s : PromiseState)
    (hp : p.state = .pending) :
    resolve_ selfId q u p s (.promiseRef selfId) =
      scheduleNotifications_ q
        { p with
            parent := none
            state := .rejected
            value := .err u .TypeError "A promise may not resolve to itself" false } := by
  unfold resolve_
  rw [if_neg (by simp [hp])]
  simp only [if_pos rfl]
  rw [if_neg (by simp)]
  simp

/-- `resolve_` on a pending promise adopting a thenable: the record is
left blocked while the inner thenable is awaited. -/
theorem resolve_adopt (selfId q u : Nat) (p : PromiseRec) (s : PromiseState)
    (v : JSVal) (hp : p.state = .pending) (hself : v ≠ .promiseRef selfId)
    (hs : s ≠ .rejected) (hth : isThenableImpl v = true) :
    resolve_ selfId q u p s v =
      ({ p with parent := none, state := .blocked }, false) := by
  unfold resolve_
  rw [if_neg (by simp [hp])]
  simp only [if_neg hself]
  rw [if_pos (by exact ⟨hs, hth⟩)]

theorem resolve_state_of_pending (selfId q u : Nat) (p : PromiseRec)
    (s : PromiseState) (v : JSVal)
    (hp : p.state = .pending) (hs : s ≠ .pending) :
    (resolve_ selfId q u p s v).1.state ≠ .pending := by
  by_cases hself : v = JSVal.promiseRef selfId
  · subst hself
    rw [resolve_self selfId q u p s hp, (scheduleNotifications_preserves q _).1]
    simp
  · by_cases hr : s = .rejected
    · rw [resolve_commit selfId q u p s v hp hself (Or.inl hr),
        (scheduleNotifications_preserves q _).1]
      simpa using hs
    · cases hth : isThenableImpl v with
      | true =>
        rw [resolve_adopt selfId q u p s v hp hself hr hth]
        simp
      | false =>
        rw [resolve_commit selfId q u p s v hp hself (Or.inr hth),
          (scheduleNotifications_preserves q _).1]
        simpa using hs

theorem ne_promiseRef_of_not_instance (w : JSVal) (i : Nat)
    (h : isPromiseInstance w = false) : w ≠ .promiseRef i := by
  intro hw
  subst hw
  simp [isPromiseInstance] at h

/-! ### Claim theorems -/

/-- C1: every `promise.Promise` settles at most once.  From the pending
state, one call to `resolve_` — the sole target of the `fulfill` and
`reject` functions handed to the resolver — takes the promise out of
the pending state, and any further `resolve_` call (fulfill-then-fulfill,
fulfill-then-reject, reject-then-fulfill, reject-then-reject, with any
value) is a no-op, so the first settlement is authoritative for the
stored state and value. -/
theorem c1_resolve_settles_at_most_once
    (selfId q1 q2 u1 u2 : Nat) (p : PromiseRec)
    (s1 s2 : PromiseState) (v1 v2 : JSVal)
    (hp : p.state = .pending)
    (hs1 : s1 = .fulfilled ∨ s1 = .rejected) :
    (resolve_ selfId q1 u1 p s1 v1).1.state ≠ .pending ∧
    resolve_ selfId q2 u2 (resolve_ selfId q1 u1 p s1 v1).1 s2 v2 =
      ((resolve_ selfId q1 u1 p s1 v1).1, false) := by
  have hne : (resolve_ selfId q1 u1 p s1 v1).1.state ≠ .pending := by
    refine resolve_state_of_pending selfId q1 u1 p s1 v1 hp ?_
    rcases hs1 with h | h <;> simp [h]
  exact ⟨hne, resolve_noop_of_settled selfId q2 u2 _ s2 v2 hne⟩

theorem c1_witness :
    (resolve_ 0 5 9 initPromise .fulfilled (.num 3)).1.state ≠ .pending ∧
    resolve_ 0 6 10 (resolve_ 0 5 9 initPromise .fulfilled (.num 3)).1
        .rejected (.str "x") =
      ((resolve_ 0 5 9 initPromise .fulfilled (.num 3)).1, false) :=
  c1_resolve_settles_at_most_once 0 5 6 9 10 initPromise .fulfilled .rejected
    (.num 3) (.str "x") rfl (Or.inl rfl)

/-- C5: when a promise settles rejected with its handled flag still
false, `scheduleNotifications_` invokes `addUnhandledRejection` on the
promise's queue exactly when the rejection value is not a
`CancellationError` (of any kind); and `addUnhandledRejection` puts the
promise into the queue's unhandled-rejection set. -/
theorem c5_unhandled_iff_not_cancellation (q pid : Nat) (p : PromiseRec)
    (s : List Nat) (hst : p.state = .rejected) (hh : p.handled = false) :
    ((scheduleNotifications_ q p).2 = true ↔
      isCancellationErrorVal p.value = false) ∧
    pid ∈ addUnhandledRejection s pid := by
  constructor
  · rw [scheduleNotifications_flag, hh, hst]
    simp
  · by_cases hmem : pid ∈ s <;> simp [addUnhandledRejection, setAdd, hmem]

theorem c5_witness :
    (((scheduleNotifications_ 4
        { initPromise with state := .rejected, value := .str "boom" }).2 = true) ↔
      isCancellationErrorVal
        ({ initPromise with state := .rejected, value := .str "boom" } :
          PromiseRec).value = false) ∧
    7 ∈ addUnhandledRejection [] 7 :=
  c5_unhandled_iff_not_cancellation 4 7
    { initPromise with state := .rejected, value := .str "boom" } [] rfl rfl

/-- C6: self-resolution never deadlocks and always produces a type
error.  Resolving a pending `promise.Promise` with itself forces the
promise into the rejected state with a `TypeError` value; calling a
`promise.Deferred`'s `fulfill` or `reject` function with the `Deferred`
itself throws a `TypeError` (`checkNotSelf`). -/
theorem c6_self_resolution_type_error
    (selfId q u dId selfPid q2 u2 t2 : Nat) (p pd : PromiseRec)
    (s : PromiseState) (hp : p.state = .pending) :
    ((resolve_ selfId q u p s (.promiseRef selfId)).1.state = .rejected ∧
     (resolve_ selfId q u p s (.promiseRef selfId)).1.value =
       .err u .TypeError "A promise may not resolve to itself" false) ∧
    deferredFulfill dId selfPid q2 u2 t2 pd (.deferredRef dId) =
      .error (.err t2 .TypeError "May not resolve a Deferred with itself" false) ∧
    deferredReject dId selfPid q2 u2 t2 pd (.deferredRef dId) =
      .error (.err t2 .TypeError "May not resolve a Deferred with itself" false) := by
  refine ⟨⟨?_, ?_⟩, ?_, ?_⟩
  · rw [resolve_self selfId q u p s hp, (scheduleNotifications_preserves q _).1]
  · rw [resolve_self selfId q u p s hp,
      (scheduleNotifications_preserves q _).2.1]
  · simp [deferredFulfill]
  · simp [deferredReject]

theorem c6_witness :
    ((resolve_ 0 5 9 initPromise .fulfilled (.promiseRef 0)).1.state = .rejected ∧
     (resolve_ 0 5 9 initPromise .fulfilled (.promiseRef 0)).1.value =
       .err 9 .TypeError "A promise may not resolve to itself" false) ∧
    deferredFulfill 2 3 6 10 11 initPromise (.deferredRef 2) =
      .error (.err 11 .TypeError "May not resolve a Deferred with itself" false) ∧
    deferredReject 2 3 6 10 11 initPromise (.deferredRef 2) =
      .error (.err 11 .TypeError "May not resolve a Deferred with itself" false) :=
  c6_self_resolution_type_error 0 5 9 2 3 6 10 11 initPromise initPromise
    .fulfilled rfl

/-- C8: the `DiscardedTaskError` constructor is idempotent on its
cause: an existing `DiscardedTaskError` is returned unchanged, while
any other cause yields a fresh silent cancellation error whose message
appends the cause's message to the discard prefix. -/
theorem c8_discarded_task_error_idempotent (uid u : Nat) (v : JSVal)
    (cls : ErrClass) (m : String) (si : Bool) :
    (isDiscardedTaskErrorVal v = true → mkDiscardedTaskError uid v = v) ∧
    (isDiscardedTaskErrorVal v = false →
      isCancellationErrorVal (mkDiscardedTaskError uid v) = true ∧
      isSilentCancellation (mkDiscardedTaskError uid v) = true) ∧
    (cls ≠ .DiscardedTaskError →
      mkDiscardedTaskError uid (.err u cls m si) =
        .err uid .DiscardedTaskError
          ("Task was discarded due to a previous failure" ++ (": " ++ m)) true) := by
  refine ⟨?_, ?_, ?_⟩
  · intro h
    simp [mkDiscardedTaskError, h]
  · intro h
    constructor <;>
      simp [mkDiscardedTaskError, h, isCancellationErrorVal, isSilentCancellation]
  · intro h
    simp [mkDiscardedTaskError, isDiscardedTaskErrorVal, h, truthy,
      messageOrString]

theorem c8_witness :
    mkDiscardedTaskError 7 (.err 1 .DiscardedTaskError "m" true) =
      .err 1 .DiscardedTaskError "m" true ∧
    mkDiscardedTaskError 7 (.err 1 .GenericError "boom" false) =
      .err 7 .DiscardedTaskError
        ("Task was discarded due to a previous failure" ++ (": " ++ "boom")) true :=
  ⟨(c8_discarded_task_error_idempotent 7 1 (.err 1 .DiscardedTaskError "m" true)
      .GenericError "boom" false).1 rfl,
   (c8_discarded_task_error_idempotent 7 1 (.err 1 .GenericError "boom" false)
      .GenericError "boom" false).2.2 (by decide)⟩

/-- C10: `promise.fulfilled` and `promise.rejected` return an argument
that is already a `promise.Promise` instance unchanged (whatever its
outcome), and only for non-instances construct a new promise resolved
with the argument: a fresh promise fulfilled with the value (for a
non-thenable value) respectively rejected with the reason. -/
theorem c10_fulfilled_rejected_identity
    (freshId q u pid : Nat) (v w : JSVal)
    (hv1 : isPromiseInstance v = false) (hv2 : isThenableImpl v = false)
    (hw : isPromiseInstance w = false) :
    (promiseFulfilled freshId q u (.promiseRef pid) = (.promiseRef pid, none) ∧
     promiseRejected freshId q u (.promiseRef pid) = (.promiseRef pid, none)) ∧
    promiseFulfilled freshId q u v =
      (.promiseRef freshId,
       some { initPromise with state := .fulfilled, value := v, queue := some q }) ∧
    promiseRejected freshId q u w =
      (.promiseRef freshId,
       some { initPromise with state := .rejected, value := w, queue := some q }) := by
  refine ⟨⟨?_, ?_⟩, ?_, ?_⟩
  · simp [promiseFulfilled, isPromiseInstance]
  · simp [promiseRejected, isPromiseInstance]
  · rw [promiseFulfilled, if_neg (by simp [hv1])]
    rw [promiseFulfill,
      resolve_commit freshId q u initPromise .fulfilled v rfl
        (ne_promiseRef_of_not_instance v freshId hv1) (Or.inr hv2)]
    by_cases hsil : isSilentCancellation v = true <;>
      simp [scheduleNotifications_, hsil, initPromise]
  · rw [promiseRejected, if_neg (by simp [hw])]
    rw [promiseReject,
      resolve_commit freshId q u initPromise .rejected w rfl
        (ne_promiseRef_of_not_instance w freshId hw) (Or.inl rfl)]
    by_cases hsil : isSilentCancellation w = true <;>
      simp [scheduleNotifications_, hsil, initPromise]

theorem dequeueLoop_cons_of_neg (pend : Nat → Bool) (x : Nat)
    (ints tsks : List Nat) (h : pend x = false) :
    dequeueLoop pend (x :: ints) tsks = dequeueLoop pend ints tsks := by
  simp only [dequeueLoop, dequeueLane, h, Bool.false_eq_true, if_false]

/-- C2: the dequeue step of `TaskQueue.executeNext_`/`getNextTask_`
returns the first task of the interrupt lane followed by the normal
lane whose promise is still pending — so the interrupt lane has strict
priority, each lane is FIFO, and every popped task whose promise is no
longer pending is discarded without being run (the two result lanes
are exactly what follows the returned task). -/
theorem dequeueLoop_nil_cons_of_neg (pend : Nat → Bool) (x : Nat)
    (tsks : List Nat) (h : pend x = false) :
    dequeueLoop pend [] (x :: tsks) = dequeueLoop pend [] tsks := by
  simp [dequeueLoop, dequeueLane, h]

theorem c2_dequeue_priority_fifo_skip (pend : Nat → Bool)
    (ints tsks : List Nat) :
    (dequeueLoop pend ints tsks).1 = (ints ++ tsks).find? pend ∧
    (dequeueLoop pend ints tsks).2.1 ++ (dequeueLoop pend ints tsks).2.2 =
      ((ints ++ tsks).dropWhile (fun t => !pend t)).tail := by
  induction ints with
  | nil =>
    rw [List.nil_append]
    induction tsks with
    | nil => simp [dequeueLoop, dequeueLane]
    | cons x rest ihT =>
      by_cases hx : pend x
      · have hstep : dequeueLoop pend [] (x :: rest) = (some x, ([], rest)) := by
          simp [dequeueLoop, dequeueLane, hx]
        rw [hstep, List.find?_cons_of_pos _ hx,
          List.dropWhile_cons_of_neg (by simp [hx])]
        simp
      · have hxf : pend x = false := by simpa using hx
        rw [dequeueLoop_nil_cons_of_neg pend x rest hxf,
          List.find?_cons_of_neg _ hx,
          List.dropWhile_cons_of_pos (by simp [hxf])]
        exact ihT
  | cons x rest ih =>
    by_cases hx : pend x
    · have hstep : dequeueLoop pend (x :: rest) tsks = (some x, (rest, tsks)) := by
        simp [dequeueLoop, dequeueLane, hx]
      rw [hstep, List.cons_append, List.find?_cons_of_pos _ hx,
        List.dropWhile_cons_of_neg (by simp [hx])]
      simp
    · have hxf : pend x = false := by simpa using hx
      rw [dequeueLoop_cons_of_neg pend x rest tsks hxf, List.cons_append,
        List.find?_cons_of_neg _ hx,
        List.dropWhile_cons_of_pos (by simp [hxf])]
      exact ih

theorem scheduleCallbacksInterrupts_none (ints : List Nat) (p : PromiseRec)
    (h : p.callbacks = none) :
    scheduleCallbacksInterrupts ints p = (ints, p) := by
  simp [scheduleCallbacksInterrupts, h]

/-- C3: processing a queue's recorded unhandled rejections: with one
distinct recorded value the queue aborts with that value unchanged;
with more than one it aborts with a single
`MultipleUnhandledRejectionError` whose `errors` set holds exactly the
recorded values; with propagation disabled it does not abort, reports
the same error to the flow's uncaught-exception channel and continues
(returns `false`); the rejection set is cleared. -/
theorem c3_unhandled_rejection_aggregation
    (propagate : Bool) (value_ : Nat → JSVal) (rejections : List Nat)
    (uid : Nat) (e : JSVal) (hne : rejections ≠ []) :
    (dedupValues (rejections.map value_) = [e] → propagate = true →
      processUnhandledRejections_ propagate value_ rejections uid =
        { returned := true, abortedWith := some (.single e),
          reportedUncaught := none, rejectionsAfter := [] }) ∧
    (2 ≤ (dedupValues (rejections.map value_)).length → propagate = true →
      processUnhandledRejections_ propagate value_ rejections uid =
        { returned := true,
          abortedWith := some (.multiple uid (dedupValues (rejections.map value_))),
          reportedUncaught := none, rejectionsAfter := [] }) ∧
    (∀ v, v ∈ dedupValues (rejections.map value_) ↔ v ∈ rejections.map value_) ∧
    (propagate = false →
      (processUnhandledRejections_ propagate value_ rejections uid).abortedWith
          = none ∧
      (processUnhandledRejections_ propagate value_ rejections uid).returned
          = false ∧
      (processUnhandledRejections_ propagate value_ rejections uid).rejectionsAfter
          = [] ∧
      (dedupValues (rejections.map value_) = [e] →
        (processUnhandledRejections_ propagate value_ rejections uid).reportedUncaught
          = some (.single e)) ∧
      (2 ≤ (dedupValues (rejections.map value_)).length →
        (processUnhandledRejections_ propagate value_ rejections uid).reportedUncaught
          = some (.multiple uid (dedupValues (rejections.map value_))))) := by
  have hemp : rejections.isEmpty = false := by
    simpa [List.isEmpty_iff] using hne
  refine ⟨?_, ?_, fun v => mem_dedupValues _ v, ?_⟩
  · intro h hpr
    subst hpr
    simp [processUnhandledRejections_, hemp, h]
  · intro hlen hpr
    subst hpr
    rcases hd : dedupValues (rejections.map value_) with _ | ⟨a, tl⟩
    · rw [hd] at hlen
      simp at hlen
    · rcases tl with _ | ⟨b, tl2⟩
      · rw [hd] at hlen
        simp at hlen
      · simp [processUnhandledRejections_, hemp, hd]
  · intro hpr
    subst hpr
    refine ⟨by simp [processUnhandledRejections_, hemp],
      by simp [processUnhandledRejections_, hemp],
      by simp [processUnhandledRejections_, hemp], ?_, ?_⟩
    · intro h
      simp [processUnhandledRejections_, hemp, h]
    · intro hlen
      rcases hd : dedupValues (rejections.map value_) with _ | ⟨a, tl⟩
      · rw [hd] at hlen
        simp at hlen
      · rcases tl with _ | ⟨b, tl2⟩
        · rw [hd] at hlen
          simp at hlen
        · simp [processUnhandledRejections_, hemp, hd]

theorem c3_witness :
    processUnhandledRejections_ true (fun n => .num n) [1, 2] 9 =
      { returned := true, abortedWith := some (.multiple 9 [.num 1, .num 2]),
        reportedUncaught := none, rejectionsAfter := [] } ∧
    processUnhandledRejections_ true (fun _ => .str "boom") [1, 2] 9 =
      { returned := true, abortedWith := some (.single (.str "boom")),
        reportedUncaught := none, rejectionsAfter := [] } ∧
    (processUnhandledRejections_ false (fun n => .num n) [1, 2] 9).abortedWith
        = none := by
  refine ⟨?_, ?_, ?_⟩
  · exact (c3_unhandled_rejection_aggregation true (fun n => .num n) [1, 2] 9
      .undef (by decide)).2.1 (by decide) rfl
  · exact (c3_unhandled_rejection_aggregation true (fun _ => .str "boom") [1, 2]
      9 (.str "boom") (by decide)).1 (by decide) rfl
  · exact ((c3_unhandled_rejection_aggregation false (fun n => .num n) [1, 2] 9
      .undef (by decide)).2.2.2 rfl).1

/-- C7: `then`/`addCallback_` with neither argument a function returns
the same promise unchanged and registers nothing; with at least one
function it returns the new callback task's promise (whose parent is
the source), marks the source handled, and invokes
`clearUnhandledRejection` on the source's queue, which removes the
source from the unhandled-rejection set. -/
theorem c7_then_no_op_or_new_promise (selfId newTaskId : Nat)
    (p : PromiseRec) (hasCb hasEb : Bool) (s : List Nat) :
    (addCallback_ selfId newTaskId p false false =
      { selfAfter := p, ret := selfId, created := none, pushedCallback := false,
        volatileFlag := false, enqueuedActive := false, clearedQueue := none }) ∧
    (hasCb = true ∨ hasEb = true →
      (addCallback_ selfId newTaskId p hasCb hasEb).ret = newTaskId ∧
      (addCallback_ selfId newTaskId p hasCb hasEb).selfAfter.handled = true ∧
      (addCallback_ selfId newTaskId p hasCb hasEb).created =
        some { initPromise with parent := some selfId } ∧
      (addCallback_ selfId newTaskId p hasCb hasEb).clearedQueue = p.queue) ∧
    (s.Nodup → selfId ∉ clearUnhandledRejection s selfId) := by
  refine ⟨?_, ?_, ?_⟩
  · simp [addCallback_]
  · intro h
    have hcond : ¬(hasCb = false ∧ hasEb = false) := by
      rcases h with h | h <;> simp [h]
    by_cases hst : p.state ≠ PromiseState.pending ∧ p.state ≠ PromiseState.blocked <;>
      simp [addCallback_, hcond, hst]
  · intro hnd
    simpa [clearUnhandledRejection] using hnd.not_mem_erase

theorem c7_witness :
    (addCallback_ 0 7 { initPromise with queue := some 4 } false false =
      { selfAfter := { initPromise with queue := some 4 }, ret := 0,
        created := none, pushedCallback := false, volatileFlag := false,
        enqueuedActive := false, clearedQueue := none }) ∧
    ((addCallback_ 0 7 { initPromise with queue := some 4 } true false).ret = 7 ∧
     (addCallback_ 0 7 { initPromise with queue := some 4 } true
        false).selfAfter.handled = true ∧
     (addCallback_ 0 7 { initPromise with queue := some 4 } true false).created =
       some { initPromise with parent := some 0 } ∧
     (addCallback_ 0 7 { initPromise with queue := some 4 } true
        false).clearedQueue = some 4) ∧
    0 ∉ clearUnhandledRejection [0, 3] 0 := by
  have h := c7_then_no_op_or_new_promise 0 7
    { initPromise with queue := some 4 } true false [0, 3]
  exact ⟨h.1, h.2.1 (Or.inl rfl), h.2.2 (by decide)⟩

/-- C9: a promise settling with a silent `CancellationError`
(flow-reset or discarded-task) discards the callbacks registered while
it was pending: `scheduleNotifications_` nulls `callbacks_`, so the
queue's `scheduleCallbacks` schedules none of them as interrupts; a
callback attached after the settlement (here an errback) is enqueued on
the active queue — not pushed on `callbacks_` — and `invokeCallback_`
hands it the recorded rejection value. -/
theorem c9_silent_cancellation_drops_callbacks
    (selfId q uid newTaskId : Nat) (p : PromiseRec) (cbs ints : List Nat)
    (e : JSVal) (hp : p.state = .pending) (_hcb : p.callbacks = some cbs)
    (hsil : isSilentCancellation e = true) :
    (resolve_ selfId q uid p .rejected e).1.state = .rejected ∧
    (resolve_ selfId q uid p .rejected e).1.value = e ∧
    (resolve_ selfId q uid p .rejected e).1.callbacks = none ∧
    scheduleCallbacksInterrupts ints (resolve_ selfId q uid p .rejected e).1 =
      (ints, (resolve_ selfId q uid p .rejected e).1) ∧
    (addCallback_ selfId newTaskId (resolve_ selfId q uid p .rejected e).1
        false true).enqueuedActive = true ∧
    (addCallback_ selfId newTaskId (resolve_ selfId q uid p .rejected e).1
        false true).pushedCallback = false ∧
    invokeCallback_ (resolve_ selfId q uid p .rejected e).1 false true =
      .invokeRejected e := by
  have hself : e ≠ JSVal.promiseRef selfId := by
    intro hc
    rw [hc] at hsil
    simp [isSilentCancellation] at hsil
  rw [resolve_commit selfId q uid p .rejected e hp hself (Or.inl rfl)]
  have hstate := (scheduleNotifications_preserves q
    { p with parent := none, state := .rejected, value := e }).1
  have hvalue := (scheduleNotifications_preserves q
    { p with parent := none, state := .rejected, value := e }).2.1
  have hcbs := scheduleNotifications_silent_clears q
    { p with parent := none, state := .rejected, value := e } (by simpa using hsil)
  refine ⟨hstate, hvalue, hcbs,
    scheduleCallbacksInterrupts_none ints _ hcbs, ?_, ?_, ?_⟩
  · simp [addCallback_, hstate]
  · simp [addCallback_, hstate]
  · simp [invokeCallback_, hstate, hvalue]

theorem c9_witness :
    (resolve_ 0 5 9 { initPromise with callbacks := some [4, 5] } .rejected
        (.err 1 .FlowResetError "ControlFlow was reset" true)).1.state
      = .rejected ∧
    (resolve_ 0 5 9 { initPromise with callbacks := some [4, 5] } .rejected
        (.err 1 .FlowResetError "ControlFlow was reset" true)).1.value
      = .err 1 .FlowResetError "ControlFlow was reset" true ∧
    (resolve_ 0 5 9 { initPromise with callbacks := some [4, 5] } .rejected
        (.err 1 .FlowResetError "ControlFlow was reset" true)).1.callbacks
      = none ∧
    scheduleCallbacksInterrupts [3]
        (resolve_ 0 5 9 { initPromise with callbacks := some [4, 5] } .rejected
          (.err 1 .FlowResetError "ControlFlow was reset" true)).1 =
      ([3], (resolve_ 0 5 9 { initPromise with callbacks := some [4, 5] }
        .rejected (.err 1 .FlowResetError "ControlFlow was reset" true)).1) ∧
    (addCallback_ 0 7 (resolve_ 0 5 9
        { initPromise with callbacks := some [4, 5] } .rejected
        (.err 1 .FlowResetError "ControlFlow was reset" true)).1
        false true).enqueuedActive = true ∧
    (addCallback_ 0 7 (resolve_ 0 5 9
        { initPromise with callbacks := some [4, 5] } .rejected
        (.err 1 .FlowResetError "ControlFlow was reset" true)).1
        false true).pushedCallback = false ∧
    invokeCallback_ (resolve_ 0 5 9
        { initPromise with callbacks := some [4, 5] } .rejected
        (.err 1 .FlowResetError "ControlFlow was reset" true)).1 false true =
      .invokeRejected (.err 1 .FlowResetError "ControlFlow was reset" true) :=
  c9_silent_cancellation_drops_callbacks 0 5 9 7
    { initPromise with callbacks := some [4, 5] } [4, 5] [3]
    (.err 1 .FlowResetError "ControlFlow was reset" true) rfl rfl (by decide)

theorem cancelLocal_fields (h : Heap) (id q u : Nat) (reason : JSVal)
    (hcc : canCancel (h id) = true) :
    ((cancelLocal h id q u reason) id).state = .rejected ∧
    isCancellationErrorVal ((cancelLocal h id q u reason) id).value = true ∧
    (∀ x, x ≠ id → (cancelLocal h id q u reason) x = h x) := by
  rcases wrapCancellation_shape u reason none with ⟨msg, hw⟩
  have hrne : wrapCancellation u reason none ≠ JSVal.promiseRef id := by
    rw [hw]
    intro hc
    cases hc
  have hcases : (h id).state = PromiseState.pending ∨
      (h id).state = PromiseState.blocked := by
    simpa [canCancel] using hcc
  have hmain : ∀ p2 : PromiseRec × Bool,
      p2 = resolve_ id q u { h id with cancelHandler := false, state := .pending }
        .rejected (wrapCancellation u reason none) →
      p2.1.state = .rejected ∧ isCancellationErrorVal p2.1.value = true := by
    intro p2 hp2
    rw [hp2, resolve_commit id q u _ .rejected _ rfl hrne (Or.inl rfl)]
    refine ⟨(scheduleNotifications_preserves q _).1, ?_⟩
    rw [(scheduleNotifications_preserves q _).2.1]
    show isCancellationErrorVal (wrapCancellation u reason none) = true
    rw [hw]
    simp [isCancellationErrorVal]
  rcases hcases with hst | hst
  · have hnb : ({ h id with cancelHandler := false } : PromiseRec).state ≠
        PromiseState.blocked := by simp [hst]
    have hres : cancelLocal h id q u reason = updHeap h id
        (resolve_ id q u { h id with cancelHandler := false } .rejected
          (wrapCancellation u reason none)).1 := by
      simp only [cancelLocal, if_neg hnb]
    have hkey := hmain (resolve_ id q u { h id with cancelHandler := false }
      .rejected (wrapCancellation u reason none)) (by
        congr 1
        · show ({ h id with cancelHandler := false } : PromiseRec) =
            { h id with cancelHandler := false, state := .pending }
          cases hrec : h id
          simp_all)
    rw [hres]
    refine ⟨?_, ?_, ?_⟩
    · simpa [updHeap] using hkey.1
    · simpa [updHeap] using hkey.2
    · intro x hx
      simp [updHeap, hx]
  · have hb : ({ h id with cancelHandler := false } : PromiseRec).state =
        PromiseState.blocked := by simp [hst]
    have hres : cancelLocal h id q u reason = updHeap h id
        (resolve_ id q u { { h id with cancelHandler := false } with
          state := .pending } .rejected (wrapCancellation u reason none)).1 := by
      simp only [cancelLocal, if_pos hb]
    have hkey := hmain (resolve_ id q u { { h id with cancelHandler := false }
        with state := .pending } .rejected (wrapCancellation u reason none)) rfl
    rw [hres]
    refine ⟨?_, ?_, ?_⟩
    · simpa [updHeap] using hkey.1
    · simpa [updHeap] using hkey.2
    · intro x hx
      simp [updHeap, hx]

/-- C4: `Promise.cancel` is a no-op unless the promise is pending or
blocked; and when the promise has a still-cancellable parent it was
chained from, cancellation is delegated to the parent instead of
rejecting locally, leaving a root parent rejected with a cancellation
error while the child's own record is untouched by the delegation
step. -/
theorem c4_cancel_noop_and_parent_delegation
    (fuel : Nat) (h : Heap) (id par q u : Nat) (reason : JSVal) :
    (canCancel (h id) = false → cancelP (fuel + 1) h id q u reason = h) ∧
    ((h id).parent = some par → canCancel (h id) = true →
      canCancel (h par) = true → (h par).parent = none → par ≠ id →
      ((cancelP (fuel + 1 + 1) h id q u reason) par).state = .rejected ∧
      isCancellationErrorVal
        ((cancelP (fuel + 1 + 1) h id q u reason) par).value = true ∧
      (cancelP (fuel + 1 + 1) h id q u reason) id = h id) := by
  constructor
  · intro hcc
    simp [cancelP, hcc]
  · intro hpar hcc hccp hroot hne
    have step1 : cancelP (fuel + 1 + 1) h id q u reason =
        cancelP (fuel + 1) h par q u reason := by
      simp [cancelP, hcc, hpar, hccp]
    have step2 : cancelP (fuel + 1) h par q u reason =
        cancelLocal h par q u reason := by
      simp [cancelP, hccp, hroot]
    have hf := cancelLocal_fields h par q u reason hccp
    rw [step1, step2]
    exact ⟨hf.1, hf.2.1, hf.2.2 id (fun hc => hne hc.symm)⟩

/-- Concrete heap used by the C4 witness: promise 1 is a
`then`-derived child of the pending root promise 0; promise 2 is
already fulfilled. -/
def heapW : Heap :=
  fun n =>
    if n = 1 then { initPromise with parent := some 0 }
    else if n = 2 then { initPromise with state := .fulfilled, value := .num 1 }
    else initPromise

theorem c4_witness :
    cancelP 3 heapW 2 6 9 .undef = heapW ∧
    ((cancelP 4 heapW 1 6 9 .undef) 0).state = .rejected ∧
    isCancellationErrorVal ((cancelP 4 heapW 1 6 9 .undef) 0).value = true ∧
    (cancelP 4 heapW 1 6 9 .undef) 1 = heapW 1 := by
  have hc := c4_cancel_noop_and_parent_delegation 2 heapW 1 0 6 9 .undef
  have hn := (c4_cancel_noop_and_parent_delegation 2 heapW 2 0 6 9 .undef).1
    (by decide)
  exact ⟨hn, hc.2 (by decide) (by decide) (by decide) (by decide) (by decide)⟩

theorem c10_witness :
    (promiseFulfilled 1 5 9 (.promiseRef 3) = (.promiseRef 3, none) ∧
     promiseRejected 1 5 9 (.promiseRef 3) = (.promiseRef 3, none)) ∧
    promiseFulfilled 1 5 9 (.str "a") =
      (.promiseRef 1,
       some { initPromise with state := .fulfilled, value := .str "a", queue := some 5 }) ∧
    promiseRejected 1 5 9 (.str "b") =
      (.promiseRef 1,
       some { initPromise with state := .rejected, value := .str "b", queue := some 5 }) :=
  c10_fulfilled_rejected_identity 1 5 9 3 (.str "a") (.str "b") rfl rfl rfl

end SW
